import Mathlib

/-!
Verification of the drowsiness telemetry pipeline of `realtime-ear-ai`
(`CamLive.py`, `simulate_db.py`) against its natural-language specification.

The Python sources are shallowly embedded: numeric values become `ℚ`/`ℤ`/`ℕ`,
the module-level mutable variables of `CamLive.py` (`closed_start_time`, the
pygame mixer state) become explicit state records threaded through step
functions, and the `random` module becomes an explicit stream of draws.
-/

namespace RealtimeEar

/-! ### Alert state machine (CamLive.py, main loop lines 110-130)

One tick of the main loop receives the two openness percentages and the
current wall-clock time.  `closed_start_time` is `none` when no closure run
is active.  `alerting` models whether the alert (sound/console message) is
currently asserted; it is set on a closed tick whose elapsed closure time
reaches `ALERT_DURATION = 2.0` seconds and cleared on an open tick. -/

structure Tick where
  lp : ℚ
  rp : ℚ
  t  : ℚ
deriving DecidableEq, Repr

/-- Both eyes report 0% openness (`left_percent == 0.0 and right_percent == 0.0`). -/
def Tick.closed (x : Tick) : Bool :=
  decide (x.lp = 0) && decide (x.rp = 0)

structure AlertSt where
  closedStart : Option ℚ
  alerting    : Bool
deriving DecidableEq, Repr

/-- Initial state: `closed_start_time = None`, no sound playing. -/
def initAlert : AlertSt := ⟨none, false⟩

/-- One iteration of the alert-handling block of the main loop, for a tick on
which a face was detected (lines 110-130 of CamLive.py). -/
def stepAlert (st : AlertSt) (x : Tick) : AlertSt :=
  if x.closed then
    match st.closedStart with
    | none => { closedStart := some x.t, alerting := st.alerting }
    | some t0 =>
        { closedStart := some t0
          alerting := if 2 ≤ x.t - t0 then true else st.alerting }
  else { closedStart := none, alerting := false }

def runAlert (l : List Tick) : AlertSt := l.foldl stepAlert initAlert

/-- A camera frame: either landmarks were found (`sig = some (left%, right%)`)
or no face was detected (`sig = none`). -/
structure Frame where
  sig : Option (ℚ × ℚ)
  t   : ℚ
deriving DecidableEq, Repr

/-- One full main-loop iteration (lines 87-130): when
`results.multi_face_landmarks` is falsy the entire alert-handling block is
skipped, leaving `closed_start_time` and the sound state untouched. -/
def stepFrame (st : AlertSt) (f : Frame) : AlertSt :=
  match f.sig with
  | none => st
  | some (lp, rp) => stepAlert st ⟨lp, rp, f.t⟩

def runFrames (l : List Frame) : AlertSt := l.foldl stepFrame initAlert

/-! ### Openness percentage (CamLive.py lines 107-108)

`percent ear` embeds
`0.0 if ear < CLOSED_EYE_THRESHOLD else min(ear / MAX_EAR * 100, 100)`
with `CLOSED_EYE_THRESHOLD = 0.15` and `MAX_EAR = 0.35`. -/

def percent (ear : ℚ) : ℚ :=
  if ear < 3/20 then 0 else min (ear / (7/20) * 100) 100

/-! ### Scenario input for claim C1: `[82,82,0,0,0,0,82]` at 1 tick/second. -/

def scenarioTicks : List Tick :=
  [⟨82, 82, 0⟩, ⟨82, 82, 1⟩, ⟨0, 0, 2⟩, ⟨0, 0, 3⟩, ⟨0, 0, 4⟩, ⟨0, 0, 5⟩,
   ⟨82, 82, 6⟩]

/-! ### Eye aspect ratio (CamLive.py lines 43-48)

Landmark points are integer pixel coordinates (produced by
`denormalize_landmark`); `np.linalg.norm` of the difference of two points is
the Euclidean distance.  `eye_pts[0] .. eye_pts[5]` are the spec's
`p1 .. p6`. -/

noncomputable def pixdist (p q : ℤ × ℤ) : ℝ :=
  Real.sqrt (((p.1 - q.1) ^ 2 + (p.2 - q.2) ^ 2 : ℤ) : ℝ)

/-- `eye_aspect_ratio`: `A = ‖p2−p6‖`, `B = ‖p3−p5‖`, `C = ‖p1−p4‖`, and the
ratio is `(A + B) / (2.0 * C) if C != 0 else 0.0`. -/
noncomputable def eye_aspect_ratio (pts : Fin 6 → ℤ × ℤ) : ℝ :=
  let A := pixdist (pts 1) (pts 5)
  let B := pixdist (pts 2) (pts 4)
  let C := pixdist (pts 0) (pts 3)
  if C ≠ 0 then (A + B) / (2 * C) else 0

/-- Every tick of `l` from index `i` to the end reports both eyes closed. -/
def ClosedFrom (l : List Tick) (i : ℕ) : Prop :=
  ∀ k, ∀ hk : k < l.length, i ≤ k → (l[k]).closed = true

/-! ### Synthetic generator (simulate_db.py lines 229-302)

Python's `round` (banker's rounding, half to even) is embedded on `ℚ`; the
`random` module is embedded as the stream of raw variates a seeded PRNG
produces, consumed one draw per primitive call, with `gauss mu sigma`
scaling a standard variate, and `randint a b` reducing a draw into `[a,b]`.
`math.sin` is embedded as an abstract function parameter `msin`. -/

def pyRoundInt (q : ℚ) : ℤ :=
  if q - ⌊q⌋ < 1/2 then ⌊q⌋
  else if 1/2 < q - ⌊q⌋ then ⌊q⌋ + 1
  else if Even ⌊q⌋ then ⌊q⌋ else ⌊q⌋ + 1

/-- Python's `round(x, 1)`: round to one decimal digit. -/
def pyRound1 (q : ℚ) : ℚ := (pyRoundInt (10 * q) : ℚ) / 10

structure Rng where
  stream : ℕ → ℚ
  pos    : ℕ

def Rng.draw (r : Rng) : ℚ × Rng := (r.stream r.pos, ⟨r.stream, r.pos + 1⟩)

/-- `random.gauss(mu, sigma) = mu + sigma * z` for the next standard variate. -/
def Rng.gauss (mu sigma : ℚ) (r : Rng) : ℚ × Rng :=
  (mu + sigma * r.draw.1, r.draw.2)

/-- `random.random()`. -/
def Rng.rand01 (r : Rng) : ℚ × Rng := r.draw

/-- `random.randint(a, b)`: an integer in `[a, b]` from the next draw. -/
def Rng.randint (a b : ℤ) (r : Rng) : ℤ × Rng :=
  (a + ⌊r.draw.1⌋ % (b - a + 1), r.draw.2)

/-- The inter-sample `state` dict.  `base_hr = none` models the key being
absent; the numeric keys default to 0 when absent (`state.get(_, 0)`). -/
structure GenState where
  drowsy_remaining : ℕ
  drowsy_total     : ℕ
  base_hr          : Option ℤ
  closed_seconds   : ℕ
deriving DecidableEq, Repr

/-- `state = {}` at the start of `run_batch` / `run_live`. -/
def initGenState : GenState := ⟨0, 0, none, 0⟩

/-- One row of the Mesures table as produced by `generate_measurement`
(the leading `id_trajet` added by the callers is session bookkeeping). -/
structure Mesure where
  temps_ms         : ℚ
  ouverture_oeil   : ℚ
  rythme_cardiaque : ℤ
  alerte_visuelle  : Bool
  alerte_sonore    : Bool
  angle_volant     : ℚ
  force_volant     : ℚ
deriving DecidableEq, Repr

/-- `generate_measurement(t_ms, state)` (simulate_db.py lines 233-302).
Draw order per tick: openness (1 draw when drowsy; otherwise the Gaussian,
the episode-trigger uniform, and on trigger the episode-length randint),
then the always-evaluated `randint(65, 80)` default argument of
`state.get("base_hr", ...)`, then the heart-rate Gaussian, the steering
Gaussian, and the grip-force Gaussian.  The steering/force drowsiness tests
read `drowsy_remaining` after the openness step already updated it. -/
def generate_measurement (msin : ℚ → ℚ) (t_ms : ℚ) (st : GenState) (r : Rng) :
    Mesure × GenState × Rng :=
  let eyeStep : ℚ × GenState × Rng :=
    if 0 < st.drowsy_remaining then
      let progress : ℚ := (st.drowsy_remaining : ℚ) / (st.drowsy_total : ℚ)
      let g := Rng.gauss 0 2 r
      (max 0 (10 * progress + g.1),
        { st with drowsy_remaining := st.drowsy_remaining - 1 }, g.2)
    else
      let g := Rng.gauss 82 6 r
      let ouv := max 0 (min 100 g.1)
      let p := Rng.rand01 g.2
      if p.1 < 1/50 then
        let d := Rng.randint 2 8 p.2
        (ouv, { st with drowsy_remaining := d.1.toNat, drowsy_total := d.1.toNat },
          d.2)
      else (ouv, st, p.2)
  let ouverture := pyRound1 eyeStep.1
  let st1 := eyeStep.2.1
  let dflt := Rng.randint 65 80 eyeStep.2.2
  let base_hr := st1.base_hr.getD dflt.1
  let st2 := { st1 with base_hr := some base_hr }
  let gh := Rng.gauss 0 2 dflt.2
  let hr : ℚ := (base_hr : ℚ) + 5 * msin (t_ms / 30000) + gh.1
  let rythme := max 50 (min 130 (pyRoundInt hr))
  let closed_seconds := if ouverture < 15 then st2.closed_seconds + 1 else 0
  let st3 := { st2 with closed_seconds := closed_seconds }
  let eyes_closed_long := decide (2 ≤ closed_seconds)
  let baseAngle : ℚ := 15 * msin (t_ms / 8000) + 8 * msin (t_ms / 20000)
  let ga := if 0 < st3.drowsy_remaining then Rng.gauss 0 12 gh.2
    else Rng.gauss 0 3 gh.2
  let angle := pyRound1 (max (-540) (min 540 (baseAngle + ga.1)))
  let gf := if 0 < st3.drowsy_remaining then Rng.gauss 5 3 ga.2
    else Rng.gauss 20 4 ga.2
  let force := pyRound1 (max 0 (min 80 gf.1))
  (⟨t_ms, ouverture, rythme, eyes_closed_long, eyes_closed_long, angle, force⟩,
    st3, gf.2)

/-- The 1 Hz sampling loops of `run_batch` and `run_live`: tick `s` generates
a measurement at `t_ms = s * 1000`, threading the state dict and the PRNG. -/
def runGenAux (msin : ℚ → ℚ) : GenState → Rng → ℕ → ℕ → List Mesure
  | _, _, _, 0 => []
  | st, r, s, n + 1 =>
      let step := generate_measurement msin (1000 * (s : ℚ)) st r
      step.1 :: runGenAux msin step.2.1 step.2.2 (s + 1) n

/-- A whole run of `n` samples from a freshly seeded PRNG stream. -/
def runGen (msin : ℚ → ℚ) (stream : ℕ → ℚ) (n : ℕ) : List Mesure :=
  runGenAux msin initGenState ⟨stream, 0⟩ 0 n

/-- A zero placeholder for `math.sin` used in concrete runs. -/
def msin0 : ℚ → ℚ := fun _ => 0

/-- A concrete PRNG stream: tick 0 triggers a 2-tick drowsiness episode
(uniform draw 0 < 0.02, episode length randint draw 0 ↦ 2), and the tick-1
drowsiness Gaussian draws the standard variate 47.5, i.e.
`random.gauss(0, 2) = 95`. -/
def cexStream : ℕ → ℚ := fun n => if n = 7 then 95/2 else 0

def cexGen1 : Mesure × GenState × Rng :=
  generate_measurement msin0 0 initGenState ⟨cexStream, 0⟩

def cexGen2 : Mesure × GenState × Rng :=
  generate_measurement msin0 1000 cexGen1.2.1 cexGen1.2.2

def cexB1 : Mesure × GenState × Rng :=
  generate_measurement msin0 5000 initGenState ⟨cexStream, 0⟩

def cexB2 : Mesure × GenState × Rng :=
  generate_measurement msin0 3000 cexB1.2.1 cexB1.2.2

/-! ### Buffered live loop (simulate_db.py lines 379-453)

`run_live` buffers one row per tick and calls `bulk_insert_mesures` every
`FLUSH_INTERVAL_S = 10` ticks.  `bulk_insert_mesures` commits and returns,
or raises a database error; the loop catches only KeyboardInterrupt, so a
failed flush propagates out of the loop (the `buffer = []` reset is only
reached after the insert returned).  Rows are abstracted by their payload
type `R` with `row s` the row buffered at tick `s` (the payload content is
settled by the `generate_measurement` embedding above). -/

/-- One bulk-write attempt: `ok` is the outcome of the external database
write; on success the buffered rows are appended to the store and the buffer
is cleared, on failure the exception escapes carrying the unchanged
(buffer, store) pair. -/
def flushOp {R : Type} (ok : Bool) (buf db : List R) :
    Except (List R × List R) (List R × List R) :=
  if ok then .ok ([], db ++ buf) else .error (buf, db)

/-- The `for s in range(duration_s)` loop of `run_live`: `oks m` is the
outcome of the m-th scheduled bulk-write.  Returns the final
(buffer, store), or the escaping error of a failed flush. -/
def liveGo {R : Type} (oks : ℕ → Bool) (row : ℕ → R) :
    ℕ → ℕ → List R → List R → Except (List R × List R) (List R × List R)
  | _, 0, buf, db => .ok (buf, db)
  | s, fuel + 1, buf, db =>
      let buf1 := buf ++ [row s]
      if (s + 1) % 10 = 0 then
        match flushOp (oks ((s + 1) / 10 - 1)) buf1 db with
        | .ok (b2, d2) => liveGo oks row (s + 1) fuel b2 d2
        | .error e => .error e
      else liveGo oks row (s + 1) fuel buf1 db

/-- Number of loop iterations actually executed: `duration_s`, or the tick
at which KeyboardInterrupt arrives. -/
def liveTicks (interrupt : Option ℕ) (d : ℕ) : ℕ :=
  match interrupt with
  | none => d
  | some k => min d k

/-- A closed Trajets row together with the persisted store. -/
structure ClosedTrip (R : Type) where
  db        : List R
  debut_log : ℚ
  fin_log   : ℚ
deriving DecidableEq, Repr

/-- A whole `run_live` call: the loop runs for `liveTicks interrupt d`
iterations; then the close path runs — one final flush of the remaining
buffer (`if buffer: bulk_insert_mesures(buffer)` — skipped exactly when the
buffer is empty, which is `flush`'s empty no-op case) and then
`update_trajet_fin` writes `fin = datetime.now()`.  `finOk` is the outcome
of the final bulk-write; a failed flush anywhere propagates, so the session
end is never written on that path.  `t0` and `t1` are the wall-clock
readings taken at session open and close. -/
def run_live {R : Type} (oks : ℕ → Bool) (finOk : Bool) (row : ℕ → R)
    (interrupt : Option ℕ) (d : ℕ) (t0 t1 : ℚ) :
    Except (List R × List R) (ClosedTrip R) :=
  match liveGo oks row 0 (liveTicks interrupt d) [] [] with
  | .error e => .error e
  | .ok ([], db) => .ok ⟨db, t0, t1⟩
  | .ok (b :: bs, db) =>
      match flushOp finOk (b :: bs) db with
      | .ok (_, d2) => .ok ⟨d2, t0, t1⟩
      | .error e => .error e

/-- Flush outcomes for the C3 counterexample: the first scheduled bulk-write
fails, every later one would succeed. -/
def cexOks : ℕ → Bool := fun k => decide (0 < k)

/-! ### Alert actuation (CamLive.py lines 22-33 and the main loop)

`pygame.mixer.music` is modeled by `busy` (sound currently looping).
`start_alert_sound` runs `load` + `play(-1)` only when the mixer is not
busy; any actuation failure is caught by its `except` handler (printed, loop
continues), leaving the mixer not busy.  `attempts` counts the load/play
attempts made; `ok` is the outcome of an attempt. -/

structure SoundSt where
  busy     : Bool
  attempts : ℕ
deriving DecidableEq, Repr

def start_alert_sound (ok : Bool) (s : SoundSt) : SoundSt :=
  if s.busy then s else { busy := ok, attempts := s.attempts + 1 }

def stop_alert_sound (s : SoundSt) : SoundSt := { s with busy := false }

/-- One main-loop tick including the actuation side effects: on a closed
tick whose closure time has reached 2 s the loop calls `start_alert_sound`;
on an open tick it calls `stop_alert_sound`. -/
def camStep (ok : Bool) (cs : Option ℚ) (snd : SoundSt) (x : Tick) :
    Option ℚ × SoundSt :=
  if x.closed then
    match cs with
    | none => (some x.t, snd)
    | some t0 =>
        if 2 ≤ x.t - t0 then (some t0, start_alert_sound ok snd)
        else (some t0, snd)
  else (none, stop_alert_sound snd)

def runCam (oks : ℕ → Bool) : ℕ → Option ℚ × SoundSt → List Tick →
    Option ℚ × SoundSt
  | _, st, [] => st
  | i, st, x :: xs => runCam oks (i + 1) (camStep (oks i) st.1 st.2 x) xs

def initCam : Option ℚ × SoundSt := (none, ⟨false, 0⟩)

/-- Four closed ticks: the timer starts at t=0, the 2-second threshold is
reached at t=2, and the alert condition then holds at t=2, 3 and 4 — one
single alert-on transition. -/
def cexSoundTicks : List Tick := [⟨0, 0, 0⟩, ⟨0, 0, 2⟩, ⟨0, 0, 3⟩, ⟨0, 0, 4⟩]

/-! ## Theorems -/

theorem runAlert_concat (l : List Tick) (x : Tick) :
    runAlert (l ++ [x]) = stepAlert (runAlert l) x := by
  simp [runAlert, List.foldl_append]

/-- Full characterization of the reachable state of the alert machine after a
sequence of face ticks with strictly increasing timestamps: the timer is unset
exactly when the last tick was not closed (and then no alert is active), and
when the timer holds `t0`, `t0` is the timestamp of the first tick of the
maximal closed run ending at the last tick, with the alert active exactly when
the last timestamp is at least 2 seconds past `t0`. -/
theorem runAlert_spec (l : List Tick)
    (hmono : l.Pairwise fun a b => a.t < b.t) :
    ((runAlert l).closedStart = none →
        (runAlert l).alerting = false ∧
        ∀ hne : l ≠ [], (l.getLast hne).closed = false) ∧
    (∀ t0, (runAlert l).closedStart = some t0 →
        ∃ hne : l ≠ [], ∃ i, ∃ hi : i < l.length,
          ClosedFrom l i ∧ t0 = (l[i]).t ∧
          (i = 0 ∨ ∃ hj : i - 1 < l.length, (l[i-1]).closed = false) ∧
          ((runAlert l).alerting = true ↔ 2 ≤ (l.getLast hne).t - t0)) := by
  induction l using List.reverseRecOn with
  | nil =>
      refine ⟨fun _ => ⟨rfl, fun hne => absurd rfl hne⟩, fun t0 h => ?_⟩
      simp [runAlert, initAlert] at h
  | append_singleton l x ih =>
      have hmono' : l.Pairwise fun a b => a.t < b.t :=
        (List.pairwise_append.mp hmono).1
      have ih' := ih hmono'
      have hcat := runAlert_concat l x
      have hne : l ++ [x] ≠ [] := by simp
      have hlast : (l ++ [x]).getLast hne = x := List.getLast_concat l
      by_cases hx : x.closed
      · -- closed tick
        cases hcs : (runAlert l).closedStart with
        | none =>
            -- first tick of a new closed run
            obtain ⟨halert, hlnc⟩ := ih'.1 hcs
            have hstep : runAlert (l ++ [x]) =
                { closedStart := some x.t, alerting := (runAlert l).alerting } := by
              rw [hcat, stepAlert, if_pos hx, hcs]
            constructor
            · intro h; rw [hstep] at h; simp at h
            · intro t0 h
              rw [hstep] at h
              simp only [Option.some.injEq] at h
              refine ⟨hne, l.length, by simp, ?_, ?_, ?_, ?_⟩
              · intro k hk hik
                have hkl : k = l.length := by
                  simp only [List.length_append, List.length_singleton] at hk
                  omega
                subst hkl
                simpa [List.getElem_concat_length] using hx
              · rw [← h]
                simp [List.getElem_concat_length]
              · rcases Decidable.em (l = []) with hnil | hnil
                · left; simp [hnil]
                · right
                  have hll : 0 < l.length := List.length_pos.mpr hnil
                  refine ⟨by simp [List.length_append]; omega, ?_⟩
                  have hidx : l.length - 1 < l.length := by omega
                  rw [List.getElem_append_left hidx]
                  have := hlnc hnil
                  rwa [List.getLast_eq_getElem] at this
              · rw [hstep]
                simp only [halert, hlast, ← h]
                constructor
                · intro hcontra; exact absurd hcontra (by simp)
                · intro habs; linarith
        | some t0 =>
            -- continuing a closed run
            obtain ⟨hne', i, hi, hcf, ht0, hbd, hiff⟩ := ih'.2 t0 hcs
            have hstep : runAlert (l ++ [x]) =
                { closedStart := some t0
                  alerting := if 2 ≤ x.t - t0 then true
                    else (runAlert l).alerting } := by
              rw [hcat, stepAlert, if_pos hx, hcs]
            constructor
            · intro h; rw [hstep] at h; simp at h
            · intro t0' h
              rw [hstep] at h
              simp only [Option.some.injEq] at h
              subst h
              have hil : i < (l ++ [x]).length := by
                simp only [List.length_append, List.length_singleton]; omega
              refine ⟨hne, i, hil, ?_, ?_, ?_, ?_⟩
              · intro k hk hik
                simp only [List.length_append, List.length_singleton] at hk
                rcases Decidable.em (k < l.length) with hkl | hkl
                · rw [List.getElem_append_left hkl]; exact hcf k hkl hik
                · have hkl' : k = l.length := by omega
                  subst hkl'
                  simpa [List.getElem_concat_length] using hx
              · rw [ht0, List.getElem_append_left hi]
              · rcases hbd with h0 | ⟨hj, hjc⟩
                · exact Or.inl h0
                · refine Or.inr ⟨by simp [List.length_append]; omega, ?_⟩
                  rwa [List.getElem_append_left hj]
              · rw [hstep, hlast]
                simp only
                by_cases hcnd : 2 ≤ x.t - t0
                · simp [hcnd]
                · simp only [if_neg hcnd]
                  constructor
                  · intro ha
                    have h2 : 2 ≤ (l.getLast hne').t - t0 := hiff.mp ha
                    have hlx : (l.getLast hne').t < x.t := by
                      have hmem : l.getLast hne' ∈ l := List.getLast_mem hne'
                      exact (List.pairwise_append.mp hmono).2.2 _ hmem x (by simp)
                    linarith
                  · intro habs; exact absurd habs hcnd
      · -- open tick: reset
        have hstep : runAlert (l ++ [x]) = { closedStart := none, alerting := false } := by
          rw [hcat, stepAlert, if_neg hx]
        constructor
        · intro _
          refine ⟨by rw [hstep], fun _ => ?_⟩
          rw [hlast]
          exact Bool.not_eq_true _ ▸ (by simpa using hx)
        · intro t0 h
          rw [hstep] at h
          simp at h

/-- Derived iff: after a nonempty, strictly-timestamp-increasing tick
sequence, the machine is in Alerting exactly when some continuous both-closed
span covers the end of the sequence and measures at least 2 seconds between
its first tick and the last tick. -/
theorem runAlert_alerting_iff (l : List Tick) (hne : l ≠ [])
    (hmono : l.Pairwise fun a b => a.t < b.t) :
    (runAlert l).alerting = true ↔
      ∃ i, ∃ hi : i < l.length, ClosedFrom l i ∧
        2 ≤ (l.getLast hne).t - (l[i]).t := by
  have hspec := runAlert_spec l hmono
  have hlenpos : 0 < l.length := List.length_pos.mpr hne
  cases hcs : (runAlert l).closedStart with
  | none =>
      obtain ⟨halert, hlnc⟩ := hspec.1 hcs
      rw [halert]
      constructor
      · intro h; exact absurd h (by simp)
      · rintro ⟨i, hi, hcf, _⟩
        have hlc : (l[l.length - 1]).closed = true :=
          hcf (l.length - 1) (by omega) (by omega)
        have := hlnc hne
        rw [List.getLast_eq_getElem] at this
        rw [this] at hlc
        exact absurd hlc (by simp)
  | some t0 =>
      obtain ⟨hne', i0, hi0, hcf0, ht0, hbd0, hiff⟩ := hspec.2 t0 hcs
      rw [hiff]
      constructor
      · intro hspan
        exact ⟨i0, hi0, hcf0, by rw [← ht0]; exact hspan⟩
      · rintro ⟨i, hi, hcf, hspan⟩
        have hile : i0 ≤ i := by
          by_contra hlt
          push_neg at hlt
          rcases hbd0 with h0 | ⟨hj, hjc⟩
          · omega
          · have : (l[i0 - 1]).closed = true := hcf (i0 - 1) hj (by omega)
            rw [this] at hjc
            exact absurd hjc (by simp)
        have hts : (l[i0]).t ≤ (l[i]).t := by
          rcases Nat.eq_or_lt_of_le hile with heq | hlt
          · subst heq; rfl
          · exact le_of_lt (List.pairwise_iff_getElem.mp hmono i0 i hi0 hi hlt)
        rw [ht0]
        linarith

theorem floor_le_pyRoundInt (q : ℚ) : ⌊q⌋ ≤ pyRoundInt q := by
  rw [pyRoundInt]
  split_ifs <;> omega

theorem pyRoundInt_le_ceil (q : ℚ) : pyRoundInt q ≤ ⌈q⌉ := by
  have hfc : ⌊q⌋ ≤ ⌈q⌉ := Int.floor_le_ceil q
  rw [pyRoundInt]
  split_ifs with h1 h2 h3
  · exact hfc
  · have hlt : (⌊q⌋ : ℚ) < q := by linarith
    have := Int.lt_ceil.mpr hlt
    omega
  · exact hfc
  · push_neg at h1 h2
    have hlt : (⌊q⌋ : ℚ) < q := by linarith
    have := Int.lt_ceil.mpr hlt
    omega

theorem le_pyRound1 {a : ℤ} {q : ℚ} (h : (a : ℚ) ≤ q) : (a : ℚ) ≤ pyRound1 q := by
  rw [pyRound1, le_div_iff₀ (by norm_num : (0 : ℚ) < 10)]
  have h10 : 10 * a ≤ ⌊10 * q⌋ := Int.le_floor.mpr (by push_cast; linarith)
  have h2 := floor_le_pyRoundInt (10 * q)
  have : ((10 * a : ℤ) : ℚ) ≤ (pyRoundInt (10 * q) : ℚ) := by
    exact_mod_cast le_trans h10 h2
  push_cast at this ⊢
  linarith

theorem pyRound1_le {b : ℤ} {q : ℚ} (h : q ≤ (b : ℚ)) : pyRound1 q ≤ (b : ℚ) := by
  rw [pyRound1, div_le_iff₀ (by norm_num : (0 : ℚ) < 10)]
  have h10 : ⌈10 * q⌉ ≤ 10 * b := Int.ceil_le.mpr (by push_cast; linarith)
  have h2 := pyRoundInt_le_ceil (10 * q)
  have : (pyRoundInt (10 * q) : ℚ) ≤ ((10 * b : ℤ) : ℚ) := by
    exact_mod_cast le_trans h2 h10
  push_cast at this ⊢
  linarith

/-- Structural form of one generated measurement: the openness is a rounded
raw value that is nonnegative, and at most 100 whenever the tick did not
start inside a drowsiness episode; heart rate, steering angle and grip force
are the clamped forms the code computes. -/
theorem generate_measurement_shape (msin : ℚ → ℚ) (t : ℚ) (st : GenState)
    (r : Rng) :
    ∃ (ouvRaw hrRaw angRaw fRaw : ℚ) (flag : Bool),
      (generate_measurement msin t st r).1 =
        ⟨t, pyRound1 ouvRaw, max 50 (min 130 (pyRoundInt hrRaw)), flag, flag,
          pyRound1 (max (-540) (min 540 angRaw)),
          pyRound1 (max 0 (min 80 fRaw))⟩ ∧
      0 ≤ ouvRaw ∧ (st.drowsy_remaining = 0 → ouvRaw ≤ 100) := by
  by_cases hd : 0 < st.drowsy_remaining
  · simp only [generate_measurement, if_pos hd]
    exact ⟨_, _, _, _, _, rfl, le_max_left _ _, fun h0 => absurd h0 (by omega)⟩
  · by_cases hp : (Rng.rand01 (Rng.gauss 82 6 r).2).1 < 1/50
    · simp only [generate_measurement, if_neg hd, if_pos hp]
      exact ⟨_, _, _, _, _, rfl, le_max_left _ _,
        fun _ => max_le (by norm_num) (min_le_left _ _)⟩
    · simp only [generate_measurement, if_neg hd, if_neg hp]
      exact ⟨_, _, _, _, _, rfl, le_max_left _ _,
        fun _ => max_le (by norm_num) (min_le_left _ _)⟩

/-- Claim C1: the alert state machine is in Alerting exactly when both eyes
have reported 0% openness over a continuous span of at least 2.0 seconds
measured by the tick timestamps (for every input sequence with strictly
increasing timestamps); and on the scenario `[82,82,0,0,0,0,82]` at one tick
per second from t=0, closure is detected at t=2 (timer set to 2, not yet
alerting), Alerting is entered at t=4 (and not before), persists at t=5, and
is cleared at t=6 when openness returns to 82. -/
theorem C1_alerting_iff_two_seconds :
    (∀ (l : List Tick) (hne : l ≠ [])
        (_hmono : l.Pairwise fun a b => a.t < b.t),
      ((runAlert l).alerting = true ↔
        ∃ i, ∃ hi : i < l.length, ClosedFrom l i ∧
          2 ≤ (l.getLast hne).t - (l[i]).t)) ∧
    ((runAlert (scenarioTicks.take 3)).closedStart = some 2 ∧
     (runAlert (scenarioTicks.take 3)).alerting = false ∧
     (runAlert (scenarioTicks.take 4)).alerting = false ∧
     (runAlert (scenarioTicks.take 5)).alerting = true ∧
     (runAlert (scenarioTicks.take 6)).alerting = true ∧
     (runAlert scenarioTicks).alerting = false ∧
     (runAlert scenarioTicks).closedStart = none) := by
  refine ⟨runAlert_alerting_iff, ?_, ?_, ?_, ?_, ?_, ?_, ?_⟩ <;>
      simp [scenarioTicks, runAlert, stepAlert, Tick.closed, initAlert,
        List.foldl] <;>
    norm_num

/-- Witness for C1: the general iff instantiated at the concrete scenario
sequence, with nonemptiness and timestamp monotonicity discharged there. -/
theorem C1_alerting_iff_two_seconds_witness :
    (runAlert scenarioTicks).alerting = true ↔
      ∃ i, ∃ hi : i < scenarioTicks.length, ClosedFrom scenarioTicks i ∧
        2 ≤ (scenarioTicks.getLast (by simp [scenarioTicks])).t -
          (scenarioTicks[i]).t :=
  C1_alerting_iff_two_seconds.1 scenarioTicks (by simp [scenarioTicks])
    (by norm_num [scenarioTicks, List.pairwise_cons])

/-- Claim C2 counterexample: the code does NOT treat a no-signal tick like an
open-eyes tick.  Conjunct 1: after a closed tick at t=0, a no-face frame at
t=1 leaves the closure timer at `some 0` instead of resetting it to `none`.
Conjunct 2: on that same reachable state, a no-face frame and an open-eyes
frame produce different states, so the no-signal tick is not handled
"exactly as a tick with open eyes would" be.  Conjunct 3: on the reachable
trace closed@0, closed@2 the alert is active, and a no-face frame at t=5
leaves it asserted instead of clearing it.  Conjunct 4: on the trace
closed@0, no-face@1, closed@3 the machine enters Alerting — under the
claim's reset semantics the closure run would restart at t=3 and no alert
could occur, so a no-signal tick does contribute to entering Alerting. -/
theorem C2_counterexample :
    (runFrames [⟨some (0, 0), 0⟩, ⟨none, 1⟩]).closedStart = some 0 ∧
    stepFrame ⟨some 0, false⟩ ⟨none, 1⟩ ≠
      stepFrame ⟨some 0, false⟩ ⟨some (82, 82), 1⟩ ∧
    (runFrames [⟨some (0, 0), 0⟩, ⟨some (0, 0), 2⟩, ⟨none, 5⟩]).alerting
      = true ∧
    (runFrames [⟨some (0, 0), 0⟩, ⟨none, 1⟩, ⟨some (0, 0), 3⟩]).alerting
      = true := by
  refine ⟨?_, ?_, ?_, ?_⟩ <;>
      simp [runFrames, stepFrame, stepAlert, Tick.closed, initAlert,
        List.foldl] <;>
    norm_num

/-- Claim C2 (amended): on a tick with no face/landmarks the main loop skips
the whole alert-handling block, so the machine state is left completely
unchanged — equivalently, deleting a no-signal tick from any frame trace
does not change the resulting state.  The closure timer is not reset, an
active alert is not cleared, and the preserved start time means signal loss
during a closure episode still counts toward the 2-second span. -/
theorem C2_amended :
    (∀ (st : AlertSt) (t : ℚ), stepFrame st ⟨none, t⟩ = st) ∧
    (∀ (l1 l2 : List Frame) (t : ℚ),
      runFrames (l1 ++ ⟨none, t⟩ :: l2) = runFrames (l1 ++ l2)) := by
  refine ⟨fun st t => rfl, fun l1 l2 t => ?_⟩
  simp only [runFrames, List.foldl_append, List.foldl_cons]
  rfl

theorem pixdist_nonneg (p q : ℤ × ℤ) : 0 ≤ pixdist p q := Real.sqrt_nonneg _

theorem pixdist_eq_zero_iff (p q : ℤ × ℤ) : pixdist p q = 0 ↔ p = q := by
  rw [pixdist, Real.sqrt_eq_zero (by positivity)]
  constructor
  · intro h
    have h' : (p.1 - q.1) ^ 2 + (p.2 - q.2) ^ 2 = 0 := by exact_mod_cast h
    have h1 : p.1 - q.1 = 0 := by nlinarith [sq_nonneg (p.1 - q.1), sq_nonneg (p.2 - q.2)]
    have h2 : p.2 - q.2 = 0 := by nlinarith [sq_nonneg (p.1 - q.1), sq_nonneg (p.2 - q.2)]
    exact Prod.ext (by omega) (by omega)
  · intro h
    subst h
    norm_num

/-- Claim C7: `eye_aspect_ratio` computes `(‖p2−p6‖ + ‖p3−p5‖) / (2·‖p1−p4‖)`
with Euclidean pixel distances whenever the two corner points `p1`, `p4` are
distinct, and returns exactly 0 when they coincide (zero horizontal
distance), instead of a division fault; it is a total pure function of the
six landmark points. -/
theorem C7_eye_aspect_ratio :
    (∀ pts : Fin 6 → ℤ × ℤ, pts 0 = pts 3 → eye_aspect_ratio pts = 0) ∧
    (∀ pts : Fin 6 → ℤ × ℤ, pts 0 ≠ pts 3 →
      eye_aspect_ratio pts =
        (pixdist (pts 1) (pts 5) + pixdist (pts 2) (pts 4)) /
          (2 * pixdist (pts 0) (pts 3))) := by
  constructor
  · intro pts h
    have hC : pixdist (pts 0) (pts 3) = 0 := (pixdist_eq_zero_iff _ _).mpr h
    rw [eye_aspect_ratio]
    simp [hC]
  · intro pts h
    have hC : pixdist (pts 0) (pts 3) ≠ 0 :=
      fun hz => h ((pixdist_eq_zero_iff _ _).mp hz)
    rw [eye_aspect_ratio]
    simp [hC]

/-- Witness for C7 at concrete landmark tuples: all six points equal gives
ratio 0; corner points (0,0) and (1,0) distinct gives the quotient form. -/
theorem C7_eye_aspect_ratio_witness :
    eye_aspect_ratio (fun _ => ((0 : ℤ), (0 : ℤ))) = 0 ∧
    eye_aspect_ratio (fun i => if i = 0 then ((0 : ℤ), (0 : ℤ)) else (1, 0)) =
      (pixdist (1, 0) (1, 0) + pixdist (1, 0) (1, 0)) /
        (2 * pixdist (0, 0) (1, 0)) :=
  ⟨C7_eye_aspect_ratio.1 (fun _ => (0, 0)) rfl,
   C7_eye_aspect_ratio.2 (fun i => if i = 0 then (0, 0) else (1, 0)) (by decide)⟩

/-- Claim C6: for every eye aspect ratio `r`, the openness mapping of
CamLive.py returns exactly 0% below the closed-eye threshold 0.15, exactly
100% at or above the maximum-open ratio 0.35, and in between scales linearly
(`percent r = 2000/7 * r`, i.e. `r / 0.35 * 100`) with the result always in
[0, 100]. -/
theorem C6_percent_mapping :
    (∀ r : ℚ, r < 3/20 → percent r = 0) ∧
    (∀ r : ℚ, 7/20 ≤ r → percent r = 100) ∧
    (∀ r : ℚ, 3/20 ≤ r → r < 7/20 →
      percent r = 2000/7 * r ∧ 0 ≤ percent r ∧ percent r ≤ 100) := by
  refine ⟨fun r hr => if_pos hr, fun r hr => ?_, fun r hr1 hr2 => ?_⟩
  · rw [percent, if_neg (by linarith)]
    have h1 : (100 : ℚ) ≤ r / (7/20) * 100 := by
      have : (1 : ℚ) ≤ r / (7/20) := by
        rw [le_div_iff₀ (by norm_num)]; linarith
      nlinarith
    exact min_eq_right h1
  · have hne : ¬ r < 3/20 := not_lt.mpr hr1
    have hval : r / (7/20) * 100 = 2000/7 * r := by ring
    have hlt : r / (7/20) * 100 < 100 := by
      rw [hval]; nlinarith
    refine ⟨?_, ?_, ?_⟩
    · rw [percent, if_neg hne, min_eq_left hlt.le, hval]
    · rw [percent, if_neg hne]
      have : (0 : ℚ) ≤ r / (7/20) * 100 := by positivity
      exact le_min this (by norm_num)
    · rw [percent, if_neg hne]
      exact min_le_right _ _

/-- Witness for C6 at concrete ratios 0.1, 0.5 and 0.25. -/
theorem C6_percent_mapping_witness :
    percent (1/10) = 0 ∧ percent (1/2) = 100 ∧
      (percent (1/4) = 2000/7 * (1/4) ∧ 0 ≤ percent (1/4) ∧ percent (1/4) ≤ 100) :=
  ⟨C6_percent_mapping.1 (1/10) (by norm_num),
   C6_percent_mapping.2.1 (1/2) (by norm_num),
   C6_percent_mapping.2.2 (1/4) (by norm_num) (by norm_num)⟩

/-- Claim C8 counterexample: from the empty initial state, a tick whose
uniform draw triggers a drowsiness episode of length 2 followed by a drowsy
tick whose Gaussian standard variate is 47.5 (`random.gauss(0, 2) = 95`)
produces `ouverture = round(max(0.0, 10.0 * 1 + 95), 1) = 105 > 100`: the
drowsy branch clamps the openness only from below, so the generated
eye-openness is not always within [0, 100]. -/
theorem C8_counterexample :
    cexGen2.1.ouverture_oeil = 105 ∧ ¬cexGen2.1.ouverture_oeil ≤ 100 := by
  constructor <;>
    norm_num [cexGen2, cexGen1, generate_measurement, initGenState, cexStream,
      msin0, Rng.gauss, Rng.rand01, Rng.randint, Rng.draw, pyRound1, pyRoundInt]

/-- Claim C8 (amended): every measurement tuple produced by the synthetic
generator satisfies heart-rate in [50, 130], steering angle in [-540, 540],
steering force in [0, 80], and eye-openness ≥ 0; the openness is moreover
≤ 100 whenever the tick does not start inside a drowsiness episode — during
an episode the code clamps the openness only from below, so the upper bound
100 can be exceeded for large Gaussian draws. -/
theorem C8_amended_bounds (msin : ℚ → ℚ) (t : ℚ) (st : GenState) (r : Rng) :
    0 ≤ (generate_measurement msin t st r).1.ouverture_oeil ∧
    (st.drowsy_remaining = 0 →
      (generate_measurement msin t st r).1.ouverture_oeil ≤ 100) ∧
    50 ≤ (generate_measurement msin t st r).1.rythme_cardiaque ∧
    (generate_measurement msin t st r).1.rythme_cardiaque ≤ 130 ∧
    -540 ≤ (generate_measurement msin t st r).1.angle_volant ∧
    (generate_measurement msin t st r).1.angle_volant ≤ 540 ∧
    0 ≤ (generate_measurement msin t st r).1.force_volant ∧
    (generate_measurement msin t st r).1.force_volant ≤ 80 := by
  obtain ⟨ouvRaw, hrRaw, angRaw, fRaw, flag, heq, h0, h100⟩ :=
    generate_measurement_shape msin t st r
  rw [heq]
  refine ⟨?_, ?_, ?_, ?_, ?_, ?_, ?_, ?_⟩
  · exact_mod_cast le_pyRound1 (a := 0) (by exact_mod_cast h0)
  · intro hdz
    exact_mod_cast pyRound1_le (b := 100) (by exact_mod_cast h100 hdz)
  · exact le_max_left _ _
  · exact max_le (by norm_num) (min_le_left _ _)
  · exact_mod_cast le_pyRound1 (a := -540) (by exact_mod_cast le_max_left _ _)
  · refine (pyRound1_le (b := 540) ?_).trans_eq (by norm_num)
    exact (max_le (by norm_num) (min_le_left _ _)).trans_eq (by norm_num)
  · exact_mod_cast le_pyRound1 (a := 0) (by exact_mod_cast le_max_left _ _)
  · refine (pyRound1_le (b := 80) ?_).trans_eq (by norm_num)
    exact (max_le (by norm_num) (min_le_left _ _)).trans_eq (by norm_num)

/-- Witness for C8 at the concrete initial state and stream, with the
no-episode hypothesis discharged at `initGenState`. -/
theorem C8_amended_bounds_witness :
    0 ≤ cexGen1.1.ouverture_oeil ∧ cexGen1.1.ouverture_oeil ≤ 100 ∧
    50 ≤ cexGen1.1.rythme_cardiaque ∧ cexGen1.1.rythme_cardiaque ≤ 130 ∧
    -540 ≤ cexGen1.1.angle_volant ∧ cexGen1.1.angle_volant ≤ 540 ∧
    0 ≤ cexGen1.1.force_volant ∧ cexGen1.1.force_volant ≤ 80 :=
  ⟨(C8_amended_bounds msin0 0 initGenState ⟨cexStream, 0⟩).1,
   (C8_amended_bounds msin0 0 initGenState ⟨cexStream, 0⟩).2.1 rfl,
   (C8_amended_bounds msin0 0 initGenState ⟨cexStream, 0⟩).2.2⟩

/-- Claim C9: the synthetic generator is a deterministic function of the
seeded PRNG stream — two runs from equal streams (the same seed) produce
identical sample sequences: same openness, heart rate, alert flags, steering
angle, and steering force at every tick. -/
theorem C9_seed_determinism (msin : ℚ → ℚ) (s1 s2 : ℕ → ℚ) (n : ℕ)
    (hseed : s1 = s2) : runGen msin s1 n = runGen msin s2 n := by
  rw [hseed]

/-- Witness for C9: two 3-sample runs from the concrete stream coincide. -/
theorem C9_seed_determinism_witness :
    runGen msin0 cexStream 3 = runGen msin0 cexStream 3 :=
  C9_seed_determinism msin0 cexStream cexStream 3 rfl

theorem runGenAux_temps (msin : ℚ → ℚ) :
    ∀ (n s : ℕ) (st : GenState) (r : Rng),
      (runGenAux msin st r s n).map Mesure.temps_ms =
        (List.range' s n).map fun k : ℕ => 1000 * (k : ℚ)
  | 0, _, _, _ => rfl
  | n + 1, s, st, r => by
      simp only [runGenAux, List.map_cons, List.range'_succ]
      exact congrArg₂ List.cons rfl (runGenAux_temps msin n (s + 1) _ _)

/-- Claim C4 counterexample: the sample-building step accepts an offset that
is not greater than the previous one — after building a sample at
`t_ms = 5000`, building at `t_ms = 3000` succeeds and returns a measurement
(the code has no validation path at all: `generate_measurement` is total in
`t_ms`), instead of rejecting with a validation error. -/
theorem C4_counterexample :
    cexB1.1.temps_ms = 5000 ∧ cexB2.1.temps_ms = 3000 := ⟨rfl, rfl⟩

/-- Claim C4 (amended): within one run the constructed offsets are
`1000 * s` for consecutive ticks `s`, hence strictly increasing by
construction; no rejection mechanism exists (sample construction is total),
so the monotonicity holds only because the loops feed increasing tick
numbers. -/
theorem C4_amended_offsets (msin : ℚ → ℚ) (st : GenState) (r : Rng)
    (s n : ℕ) :
    (runGenAux msin st r s n).map Mesure.temps_ms =
      (List.range' s n).map (fun k : ℕ => 1000 * (k : ℚ)) ∧
    (runGenAux msin st r s n).Pairwise
      (fun a b => a.temps_ms < b.temps_ms) := by
  refine ⟨runGenAux_temps msin n s st r, ?_⟩
  have hmap : ((runGenAux msin st r s n).map Mesure.temps_ms).Pairwise
      (· < ·) := by
    rw [runGenAux_temps msin n s st r]
    refine List.Pairwise.map (fun k : ℕ => (1000 * k : ℚ)) ?_
      (List.pairwise_lt_range' s n 1 (by simp))
    intro a b hab
    have hq : (a : ℚ) < b := by exact_mod_cast hab
    simp only []
    linarith
  rw [List.pairwise_map] at hmap
  exact hmap

theorem liveGo_ok_total {R : Type} (oks : ℕ → Bool) (row : ℕ → R) :
    ∀ (fuel s : ℕ) (buf db b2 d2 : List R),
      liveGo oks row s fuel buf db = .ok (b2, d2) →
      d2 ++ b2 = (db ++ buf) ++ (List.range' s fuel).map row
  | 0, s, buf, db, b2, d2 => by
      intro h
      simp only [liveGo, Except.ok.injEq, Prod.mk.injEq] at h
      obtain ⟨h1, h2⟩ := h
      subst h1
      subst h2
      simp
  | fuel + 1, s, buf, db, b2, d2 => by
      intro h
      simp only [liveGo] at h
      by_cases hmod : (s + 1) % 10 = 0
      · rw [if_pos hmod] at h
        cases hok : oks ((s + 1) / 10 - 1) with
        | false => simp [flushOp, hok] at h
        | true =>
            simp only [flushOp, hok, if_pos] at h
            have ih := liveGo_ok_total oks row fuel (s + 1) []
              (db ++ (buf ++ [row s])) b2 d2 h
            rw [ih, List.range'_succ]
            simp
      · rw [if_neg hmod] at h
        have ih := liveGo_ok_total oks row fuel (s + 1) (buf ++ [row s]) db
          b2 d2 h
        rw [ih, List.range'_succ]
        simp

/-- Claim C3 counterexample: with the first scheduled bulk-write failing and
every later one succeeding, a 20-tick run aborts at tick 9 — the error
escapes the loop (only KeyboardInterrupt is caught) with rows 0–9 retained
in the buffer and nothing persisted; the write is never retried at the next
scheduled flush trigger, contrary to the claim that the failure is surfaced
without crashing the sampling loop and retried on the next trigger (which
would persist all 20 rows). -/
theorem C3_counterexample :
    liveGo cexOks (fun s => s) 0 20 [] [] =
      .error ([0, 1, 2, 3, 4, 5, 6, 7, 8, 9], []) ∧
    run_live cexOks true (fun s => s) none 20 0 1 =
      .error ([0, 1, 2, 3, 4, 5, 6, 7, 8, 9], []) :=
  ⟨rfl, rfl⟩

/-- Claim C3 (amended): the buffer is cleared only after the bulk-write is
acknowledged — a successful flush empties the buffer and appends its rows to
the store, a failed flush leaves the buffer contents and the store unchanged
and surfaces the failure to the caller as an escaping exception; but the
exception aborts the sampling loop immediately (the retained buffer escapes
with it), so the operation is not retried at the next scheduled flush
trigger. -/
theorem C3_amended_flush_semantics :
    (∀ (R : Type) (buf db : List R), flushOp true buf db = .ok ([], db ++ buf)) ∧
    (∀ (R : Type) (buf db : List R), flushOp false buf db = .error (buf, db)) ∧
    (∀ (R : Type) (oks : ℕ → Bool) (row : ℕ → R) (s fuel : ℕ)
        (buf db : List R), (s + 1) % 10 = 0 → oks ((s + 1) / 10 - 1) = false →
      liveGo oks row s (fuel + 1) buf db = .error (buf ++ [row s], db)) := by
  refine ⟨fun R buf db => rfl, fun R buf db => rfl, ?_⟩
  intro R oks row s fuel buf db hmod hfail
  simp [liveGo, hmod, hfail, flushOp]

/-- Witness for C3 (amended) at concrete buffers and a failing flush at
tick 9 with 10 ticks of fuel remaining. -/
theorem C3_amended_flush_semantics_witness :
    flushOp true [1] [0] = .ok ([], [0, 1]) ∧
    flushOp false [1] [0] = .error ([1], [0]) ∧
    liveGo (fun _ => false) (fun s => s) 9 11 [] [] = .error ([9], []) :=
  ⟨C3_amended_flush_semantics.1 ℕ [1] [0],
   C3_amended_flush_semantics.2.1 ℕ [1] [0],
   C3_amended_flush_semantics.2.2 ℕ (fun _ => false) (fun s => s) 9 10 [] []
     (by norm_num) rfl⟩

/-- Claim C5: every completed session close — after a full run or after a
KeyboardInterrupt — performs the single final flush of the remaining buffer
as the last action before the end timestamp is written, so the closed trip
stores every generated row, and its end timestamp satisfies end ≥ start
(given that the wall clock did not run backwards between the two readings).
On paths where a flush fails the session is never marked closed at all. -/
theorem C5_session_close {R : Type} (oks : ℕ → Bool) (finOk : Bool)
    (row : ℕ → R) (interrupt : Option ℕ) (d : ℕ) (t0 t1 : ℚ)
    (hclock : t0 ≤ t1) (trip : ClosedTrip R)
    (hok : run_live oks finOk row interrupt d t0 t1 = .ok trip) :
    trip.debut_log = t0 ∧ trip.fin_log = t1 ∧
    trip.debut_log ≤ trip.fin_log ∧
    trip.db = (List.range (liveTicks interrupt d)).map row := by
  rw [run_live] at hok
  cases hgo : liveGo oks row 0 (liveTicks interrupt d) [] [] with
  | error e =>
      rw [hgo] at hok
      exact absurd hok (by simp)
  | ok p =>
      obtain ⟨buf, db⟩ := p
      rw [hgo] at hok
      have htot := liveGo_ok_total oks row (liveTicks interrupt d) 0 [] []
        buf db hgo
      simp only [List.nil_append, List.range_eq_range'] at htot ⊢
      cases buf with
      | nil =>
          simp only [Except.ok.injEq] at hok
          subst hok
          exact ⟨rfl, rfl, hclock, by simpa using htot⟩
      | cons b bs =>
          cases finOk with
          | false => simp [flushOp] at hok
          | true =>
              simp only [flushOp, if_pos, Except.ok.injEq] at hok
              subst hok
              exact ⟨rfl, rfl, hclock, htot⟩

/-- Witness for C5: a 20-second live run interrupted at tick 7 with all
writes succeeding closes with start 0, end 5, and all seven rows stored. -/
theorem C5_session_close_witness :
    (ClosedTrip.mk [0, 1, 2, 3, 4, 5, 6] 0 5).debut_log = 0 ∧
    (ClosedTrip.mk [0, 1, 2, 3, 4, 5, 6] 0 5).fin_log = 5 ∧
    (ClosedTrip.mk [0, 1, 2, 3, 4, 5, 6] 0 5).debut_log ≤
      (ClosedTrip.mk [0, 1, 2, 3, 4, 5, 6] 0 5).fin_log ∧
    (ClosedTrip.mk [0, 1, 2, 3, 4, 5, 6] 0 5).db =
      (List.range (liveTicks (some 7) 20)).map (fun s => s) :=
  C5_session_close (fun _ => true) true (fun s => s) (some 7) 20 0 5
    (by norm_num) ⟨[0, 1, 2, 3, 4, 5, 6], 0, 5⟩ rfl

/-- Claim C10 counterexample: four closed ticks at t = 0, 2, 3, 4 contain a
single alert-on transition (the 2-second threshold is first reached at
t = 2).  With the actuator failing, the code attempts the actuation at every
alerting tick — 3 attempts — not only at the alert-on transition; when the
first attempt succeeds, the busy-guard indeed leaves it at 1 attempt. -/
theorem C10_counterexample :
    (runCam (fun _ => false) 0 initCam cexSoundTicks).2.attempts = 3 ∧
    (runCam (fun _ => true) 0 initCam cexSoundTicks).2.attempts = 1 := by
  constructor <;>
    norm_num [runCam, camStep, start_alert_sound, stop_alert_sound, initCam,
      cexSoundTicks, Tick.closed]

/-- Claim C10 (amended): `start_alert_sound` is a no-op while the sound is
already playing (so after a successful start no re-attempt happens while
Alerting persists), but whenever the sound is not playing — in particular on
every tick after a failed actuation attempt — it attempts the load/play
again; the main loop invokes it on every tick on which the alert condition
holds, so a failed actuation is retried on every subsequent alerting tick,
not only at the next alert-on transition.  Failures are caught and logged
without stopping the loop. -/
theorem C10_amended_actuation :
    (∀ (ok : Bool) (s : SoundSt), s.busy = true → start_alert_sound ok s = s) ∧
    (∀ (ok : Bool) (s : SoundSt), s.busy = false →
      start_alert_sound ok s = ⟨ok, s.attempts + 1⟩) ∧
    (∀ (ok : Bool) (snd : SoundSt) (t0 : ℚ) (x : Tick), x.closed = true →
      2 ≤ x.t - t0 →
      camStep ok (some t0) snd x = (some t0, start_alert_sound ok snd)) := by
  refine ⟨?_, ?_, ?_⟩
  · intro ok s hb
    rw [start_alert_sound, if_pos hb]
  · intro ok s hb
    rw [start_alert_sound, if_neg (by simp [hb])]
  · intro ok snd t0 x hc hspan
    rw [camStep, if_pos hc, if_pos hspan]

/-- Witness for C10 (amended) at concrete sound states and an alerting tick. -/
theorem C10_amended_actuation_witness :
    start_alert_sound false ⟨true, 5⟩ = ⟨true, 5⟩ ∧
    start_alert_sound false ⟨false, 5⟩ = ⟨false, 6⟩ ∧
    camStep false (some 0) ⟨false, 5⟩ ⟨0, 0, 2⟩ =
      (some 0, start_alert_sound false ⟨false, 5⟩) :=
  ⟨C10_amended_actuation.1 false ⟨true, 5⟩ rfl,
   C10_amended_actuation.2.1 false ⟨false, 5⟩ rfl,
   C10_amended_actuation.2.2 false ⟨false, 5⟩ 0 ⟨0, 0, 2⟩ rfl (by norm_num)⟩

end RealtimeEar
